import Mathlib

/-!
# Service Manager (SM) core — shallow embedding

Embedding of the root Service Manager of the HLE service layer
(namespace Service::SM in the source): name validation, the service
registry (ServiceManager), the one-time bring-up installation, and the
two implemented wire commands of the SM dispatcher (Initialize,
GetService).

Service names are byte sequences (List Nat, one entry per byte).  The
registry map, a hash map from name to connector reference in the source,
is embedded as an association list with a first-match lookup; the code
only ever inserts a key after a failed lookup, so the association list
and the hash map agree.

The kernel port/session primitives (ServerPort::CreatePortPair and
ClientPort::Connect) are external collaborators whose code is not part of
the studied core; they are modelled from the spec where so marked.  Port
identity is a kernel-allocated numeric id shared by the two sides of one
pair.
-/

/-- Result codes returned by the SM core.  Each constructor stands for one
distinct result-code constant of the source (RESULT_SUCCESS,
ERR_INVALID_NAME_SIZE, ERR_NAME_CONTAINS_NUL, ERR_ALREADY_REGISTERED,
ERR_SERVICE_NOT_REGISTERED, ERR_MAX_CONNECTIONS_REACHED); only their
distinctness matters to this core. -/
inductive ResultCode where
  | success
  | invalidNameSize
  | nameContainsNul
  | alreadyRegistered
  | serviceNotRegistered
  | maxConnectionsReached
deriving DecidableEq, Repr

/-- A service name: a byte string, one natural number per byte. -/
abbrev ServiceName := List Nat

/-- Embeds ValidateServiceName from the source: the size must be in the
range 1 to 8 (a size of 0 or above 8 fails with ERR_INVALID_NAME_SIZE),
and the name must not contain a NUL byte (value 0), which fails with
ERR_NAME_CONTAINS_NUL. -/
def ValidateServiceName (name : ServiceName) : ResultCode :=
  if name.length ≤ 0 ∨ name.length > 8 then ResultCode.invalidNameSize
  else if 0 ∈ name then ResultCode.nameContainsNul
  else ResultCode.success

/-- The acceptor side of a port pair (ServerPort in the kernel).  The
field portId is the kernel identity of the pair it belongs to. -/
structure ServerPort where
  portId : Nat
  max_sessions : Nat
  name : ServiceName
deriving DecidableEq, Repr

/-- The connector side of a port pair (ClientPort in the kernel).  A
ServerPort and a ClientPort are paired exactly when they carry the same
portId, minted by one factory call. -/
structure ClientPort where
  portId : Nat
  max_sessions : Nat
  name : ServiceName
deriving DecidableEq, Repr

/-- A session established through a connector (ClientSession). -/
structure Session where
  sessionId : Nat
  portId : Nat
deriving DecidableEq, Repr

/-- The slice of kernel state the SM core touches: fresh-id counters for
ports and sessions, and the live sessions as a list with one portId entry
per live session, counting against the capacity of that port. -/
structure Kernel where
  nextPortId : Nat
  nextSessionId : Nat
  activeSessions : List Nat
deriving DecidableEq, Repr

/-- The kernel state at bring-up: no ports, no sessions. -/
def Kernel.init : Kernel := ⟨0, 0, []⟩

/-- Modelled from the spec: ServerPort::CreatePortPair is not among the
studied sources.  Per the spec, create_port_pair(max_sessions, name)
returns an (acceptor, connector) pair, an atomic pairing with no
partial-failure state.  One fresh port id is allocated and stamped on
both sides; the capacity and name are fixed at creation. -/
def CreatePortPair (k : Kernel) (max_sessions : Nat) (name : ServiceName) :
    ServerPort × ClientPort × Kernel :=
  (⟨k.nextPortId, max_sessions, name⟩,
   ⟨k.nextPortId, max_sessions, name⟩,
   { k with nextPortId := k.nextPortId + 1 })

/-- Modelled from the spec: ClientPort::Connect is not among the studied
sources.  Per the spec, connecting through a connector yields a Session
or the capacity-exceeded error: it is synchronous and non-blocking,
minting a fresh session while the port is below its fixed capacity and
failing with ERR_MAX_CONNECTIONS_REACHED once the limit is reached. -/
def ClientPort.Connect (cp : ClientPort) (k : Kernel) :
    Except ResultCode Session × Kernel :=
  if k.activeSessions.count cp.portId < cp.max_sessions then
    (Except.ok ⟨k.nextSessionId, cp.portId⟩,
     { k with
        nextSessionId := k.nextSessionId + 1,
        activeSessions := cp.portId :: k.activeSessions })
  else
    (Except.error ResultCode.maxConnectionsReached, k)

/-- The registry state (class ServiceManager): the name-to-connector map
registered_services, plus the bring-up wiring.  The field
sm_interface_alive models whether the sm_interface weak reference is
non-expired (once installed, the SM dispatcher is kept alive by the
kernel named port that holds it); controller_installed models the owned
Controller. -/
structure ServiceManager where
  registered_services : List (ServiceName × ClientPort)
  sm_interface_alive : Bool
  controller_installed : Bool
deriving DecidableEq, Repr

/-- A freshly constructed registry: empty map, expired sm_interface weak
reference, no controller. -/
def ServiceManager.empty : ServiceManager := ⟨[], false, false⟩

/-- Lookup in the association-list embedding of the registry map, as done
by registered_services.find(name) in the source: the first entry whose
key equals the name, if any. -/
def findService : List (ServiceName × ClientPort) → ServiceName → Option ClientPort
  | [], _ => none
  | (n, cp) :: rest, name => if n = name then some cp else findService rest name

/-- Embeds ServiceManager::RegisterService from the source: validate the
name (CASCADE_CODE returns a non-success validation code unchanged), fail
with ERR_ALREADY_REGISTERED when the name is already in the map,
otherwise create one port pair, store the connector side keyed by the
name, and return the acceptor side.  The result carries the (possibly
updated) registry and kernel states. -/
def ServiceManager.RegisterService (sm : ServiceManager) (k : Kernel)
    (name : ServiceName) (max_sessions : Nat) :
    Except ResultCode ServerPort × ServiceManager × Kernel :=
  if ValidateServiceName name ≠ ResultCode.success then
    (Except.error (ValidateServiceName name), sm, k)
  else if (findService sm.registered_services name).isSome then
    (Except.error ResultCode.alreadyRegistered, sm, k)
  else
    let r := CreatePortPair k max_sessions name
    (Except.ok r.1,
     { sm with registered_services := (name, r.2.1) :: sm.registered_services },
     r.2.2)

/-- Embeds ServiceManager::GetServicePort from the source: validate the
name (CASCADE_CODE), fail with ERR_SERVICE_NOT_REGISTERED when the name
is absent, otherwise return the stored connector.  Read-only on the
registry. -/
def ServiceManager.GetServicePort (sm : ServiceManager) (name : ServiceName) :
    Except ResultCode ClientPort :=
  if ValidateServiceName name ≠ ResultCode.success then
    Except.error (ValidateServiceName name)
  else
    match findService sm.registered_services name with
    | none => Except.error ResultCode.serviceNotRegistered
    | some cp => Except.ok cp

/-- Embeds ServiceManager::ConnectToService from the source: CASCADE_RESULT
binds the result of GetServicePort — a resolve failure is returned as-is
(kernel state untouched) — and then invokes Connect on the resolved
connector, returning its result. -/
def ServiceManager.ConnectToService (sm : ServiceManager) (k : Kernel)
    (name : ServiceName) : Except ResultCode Session × Kernel :=
  match sm.GetServicePort name with
  | Except.error e => (Except.error e, k)
  | Except.ok cp => cp.Connect k

/-- Embeds ServiceManager::InstallInterfaces from the source: the one-time
bring-up.  The assertion that sm_interface is still expired makes a
second call a fatal assertion abort, embedded as none; otherwise the SM
dispatcher is constructed and installed as a named port (which retains
it, so the weak sm_interface reference is alive afterwards) and the
Controller is constructed and owned. -/
def ServiceManager.InstallInterfaces (sm : ServiceManager) : Option ServiceManager :=
  if sm.sm_interface_alive then
    none
  else
    some { sm with sm_interface_alive := true, controller_installed := true }

/-- An output handle of a GetService reply: either a freshly connected
session, or (on the capacity-exceeded quirk path) the stored connector of
the port. -/
inductive Handle where
  | session (s : Session)
  | port (cp : ClientPort)
deriving DecidableEq, Repr

/-- A reply as built by IPC::RequestBuilder: the result code word pushed
first, then the handles pushed with PushObjects, in order. -/
structure Reply where
  code : ResultCode
  handles : List Handle
deriving DecidableEq, Repr

/-- Embeds SM::Initialize from the source (command 0): it builds a
one-word reply holding RESULT_SUCCESS and nothing else.  The handler
reads and writes no registry or kernel state, so both pass through
unchanged. -/
def SM.Initialize (sm : ServiceManager) (k : Kernel) :
    Reply × ServiceManager × Kernel :=
  (⟨ResultCode.success, []⟩, sm, k)

/-- The decode step of SM::GetService, which constructs a string from the
raw bytes of the popped buffer: reading a C string takes the byte prefix
up to the first NUL terminator.  When no byte of the buffer is a
terminator the read runs past the end of the buffer, which is undefined
behavior; embedded as none. -/
def decodeCString : List Nat → Option (List Nat)
  | [] => none
  | b :: rest =>
    if b = 0 then some [] else Option.map (fun s => b :: s) (decodeCString rest)

/-- The decoded input of SM::GetService: two unchecked reserved words
(popped but unused) and the raw name buffer.  The buffer is popped as a
raw 9-byte array, so it is exactly 9 bytes long — one more than the
8-byte wire-format name field. -/
structure GetServiceRequest where
  unk1 : Nat
  unk2 : Nat
  name_buf : List Nat
  name_buf_size : name_buf.length = 9

/-- Embeds SM::GetService from the source (command 1): decode the name
from the raw buffer, resolve it through ServiceManager::GetServicePort,
then connect.  Resolve failure: reply with the error code and no handles.
Connect success: reply with the success code plus the session handle.
Connect failure with exactly ERR_MAX_CONNECTIONS_REACHED: reply with that
code plus the connector handle.  Any other connect failure: reply with
the error code and no handles.  The value none marks the undefined decode
(no terminator within the 9-byte buffer). -/
def SM.GetService (req : GetServiceRequest) (sm : ServiceManager) (k : Kernel) :
    Option (Reply × Kernel) :=
  match decodeCString req.name_buf with
  | none => none
  | some name =>
    match sm.GetServicePort name with
    | Except.error e => some (⟨e, []⟩, k)
    | Except.ok cp =>
      match cp.Connect k with
      | (Except.ok s, k2) => some (⟨ResultCode.success, [Handle.session s]⟩, k2)
      | (Except.error e, k2) =>
        if e = ResultCode.maxConnectionsReached then
          some (⟨ResultCode.maxConnectionsReached, [Handle.port cp]⟩, k2)
        else
          some (⟨e, []⟩, k2)

/-! ## Helper lemmas -/

/-- A failed lookup means the key is absent from the key list of the map. -/
theorem findService_eq_none_iff (l : List (ServiceName × ClientPort)) (name : ServiceName) :
    findService l name = none ↔ name ∉ l.map Prod.fst := by
  induction l with
  | nil => simp [findService]
  | cons p rest ih =>
    obtain ⟨n, cp⟩ := p
    by_cases hn : n = name
    · subst hn; simp [findService]
    · have hn2 : name ≠ n := fun hx => hn hx.symm
      simp [findService, hn, hn2, ih]

/-- Inversion of a successful GetServicePort: the name passed validation
and the connector is the stored one. -/
theorem getServicePort_ok (sm : ServiceManager) (name : ServiceName) (cp : ClientPort)
    (h : sm.GetServicePort name = Except.ok cp) :
    ValidateServiceName name = ResultCode.success
  ∧ findService sm.registered_services name = some cp := by
  unfold ServiceManager.GetServicePort at h
  by_cases hv : ValidateServiceName name = ResultCode.success
  · rw [if_neg (fun hne => hne hv)] at h
    cases hf : findService sm.registered_services name with
    | none => rw [hf] at h; cases h
    | some cp0 =>
      rw [hf] at h
      simp only [Except.ok.injEq] at h
      subst h
      exact ⟨hv, rfl⟩
  · rw [if_pos hv] at h
    cases h

/-- Inversion of a successful RegisterService: the name passed validation,
was absent, and the result components are the two sides of the one port
pair created, with the connector stored at the head of the map. -/
theorem registerService_ok (sm : ServiceManager) (k : Kernel) (name : ServiceName)
    (ms : Nat) (sp : ServerPort) (sm2 : ServiceManager) (k2 : Kernel)
    (h : sm.RegisterService k name ms = (Except.ok sp, sm2, k2)) :
    ValidateServiceName name = ResultCode.success
  ∧ findService sm.registered_services name = none
  ∧ sp = (CreatePortPair k ms name).1
  ∧ sm2 = { sm with registered_services :=
      (name, (CreatePortPair k ms name).2.1) :: sm.registered_services }
  ∧ k2 = (CreatePortPair k ms name).2.2 := by
  unfold ServiceManager.RegisterService at h
  by_cases hv : ValidateServiceName name = ResultCode.success
  · rw [if_neg (fun hne => hne hv)] at h
    by_cases hf : (findService sm.registered_services name).isSome
    · rw [if_pos hf] at h
      simp at h
    · rw [if_neg hf] at h
      simp only [Prod.mk.injEq, Except.ok.injEq] at h
      obtain ⟨h1, h2, h3⟩ := h
      exact ⟨hv, Option.not_isSome_iff_eq_none.mp hf, h1.symm, h2.symm, h3.symm⟩
  · rw [if_pos hv] at h
    simp at h

/-- Decoding a C string fails (reads past the buffer) exactly when no byte
of the buffer is a NUL terminator. -/
theorem decodeCString_eq_none_iff (l : List Nat) : decodeCString l = none ↔ 0 ∉ l := by
  induction l with
  | nil => simp [decodeCString]
  | cons b rest ih =>
    by_cases hb : b = 0
    · subst hb; simp [decodeCString]
    · have hb2 : (0 : Nat) ≠ b := fun hx => hb hx.symm
      simp [decodeCString, hb, hb2, ih]

/-- When the buffer holds a NUL terminator, decoding yields the byte
prefix strictly before the first terminator. -/
theorem decodeCString_eq_some_takeWhile (l : List Nat) (h : 0 ∈ l) :
    decodeCString l = some (l.takeWhile (fun b => b != 0)) := by
  induction l with
  | nil => cases h
  | cons b rest ih =>
    by_cases hb : b = 0
    · subst hb; simp [decodeCString, List.takeWhile_cons]
    · have h0 : 0 ∈ rest := by
        rcases List.mem_cons.mp h with h1 | h1
        · exact absurd h1.symm hb
        · exact h1
      have hb2 : (b != 0) = true := by simp [hb]
      simp [decodeCString, hb, ih h0, List.takeWhile_cons, hb2]

/-- Whenever the name decode succeeds, the GetService handler produces a
reply (every later branch builds one). -/
theorem getService_def_of_decode (req : GetServiceRequest) (sm : ServiceManager)
    (k : Kernel) (nm : ServiceName) (hd : decodeCString req.name_buf = some nm) :
    (SM.GetService req sm k).isSome := by
  unfold SM.GetService
  rw [hd]
  cases hgp : sm.GetServicePort nm with
  | error e => simp [hgp]
  | ok cp =>
    rcases hck : cp.Connect k with ⟨res, k2⟩
    cases res with
    | ok s => simp [hgp, hck]
    | error e =>
      by_cases he : e = ResultCode.maxConnectionsReached <;> simp [hgp, hck, he]

/-! ## Claim theorems -/

/-- C4: The name validation applied by both register and resolve maps the
empty name to the invalid-size error, any name longer than 8 bytes to the
invalid-size error, any name of admissible size that contains an embedded
terminator byte to the contains-terminator error, and accepts every
8-byte name with no terminator. -/
theorem validateServiceName_table :
    ValidateServiceName [] = ResultCode.invalidNameSize
  ∧ (∀ n : ServiceName, 8 < n.length → ValidateServiceName n = ResultCode.invalidNameSize)
  ∧ (∀ n : ServiceName, 1 ≤ n.length → n.length ≤ 8 → 0 ∈ n →
      ValidateServiceName n = ResultCode.nameContainsNul)
  ∧ (∀ n : ServiceName, n.length = 8 → 0 ∉ n →
      ValidateServiceName n = ResultCode.success) := by
  refine ⟨rfl, fun n h => ?_, fun n h1 h8 hm => ?_, fun n h8 hm => ?_⟩
  · unfold ValidateServiceName
    rw [if_pos (Or.inr h)]
  · unfold ValidateServiceName
    rw [if_neg (by omega), if_pos hm]
  · unfold ValidateServiceName
    rw [if_neg (by omega), if_neg hm]

/-- Witness for C4: the table evaluated at one concrete name per row. -/
theorem validateServiceName_table_witness :
    ValidateServiceName [1, 2, 3, 4, 5, 6, 7, 8, 9] = ResultCode.invalidNameSize
  ∧ ValidateServiceName [97, 0, 98] = ResultCode.nameContainsNul
  ∧ ValidateServiceName [97, 98, 99, 100, 101, 102, 103, 104] = ResultCode.success :=
  ⟨validateServiceName_table.2.1 [1, 2, 3, 4, 5, 6, 7, 8, 9] (by decide),
   validateServiceName_table.2.2.1 [97, 0, 98] (by decide) (by decide) (by decide),
   validateServiceName_table.2.2.2 [97, 98, 99, 100, 101, 102, 103, 104]
     (by decide) (by decide)⟩

/-- C2: For every valid name not already registered, a successful
register followed by resolve returns exactly the connector side of the
single port pair created inside register, whose acceptor side is what
register returned; the two sides carry the same port identity. -/
theorem register_then_resolve (sm : ServiceManager) (k : Kernel) (name : ServiceName)
    (ms : Nat) (sp : ServerPort) (sm2 : ServiceManager) (k2 : Kernel)
    (h : sm.RegisterService k name ms = (Except.ok sp, sm2, k2)) :
    sp = (CreatePortPair k ms name).1
  ∧ sm2.GetServicePort name = Except.ok (CreatePortPair k ms name).2.1
  ∧ (CreatePortPair k ms name).2.1.portId = sp.portId := by
  obtain ⟨hv, hf, hsp, hsm2, hk2⟩ := registerService_ok sm k name ms sp sm2 k2 h
  refine ⟨hsp, ?_, by rw [hsp]; rfl⟩
  subst hsm2
  unfold ServiceManager.GetServicePort
  rw [if_neg (fun hne => hne hv)]
  simp [findService]

/-! ## Concrete fixtures used by the evaluation witnesses -/

/-- The name "fs" as bytes. -/
def fsName : ServiceName := [102, 115]

/-- The name "nope" as bytes. -/
def nopeName : ServiceName := [110, 111, 112, 101]

/-- The registry after registering "fs" with capacity 1 on a fresh system. -/
def smFS : ServiceManager := ⟨[([102, 115], ⟨0, 1, [102, 115]⟩)], false, false⟩

/-- The acceptor side returned by that registration. -/
def fsPort : ServerPort := ⟨0, 1, [102, 115]⟩

/-- The connector side stored by that registration. -/
def fsConnector : ClientPort := ⟨0, 1, [102, 115]⟩

/-- The kernel state after that registration. -/
def kAfterRegister : Kernel := ⟨1, 0, []⟩

/-- The kernel state after additionally connecting one session through the
"fs" port, exhausting its capacity of 1. -/
def kOneSession : Kernel := ⟨1, 1, [0]⟩

/-- A GetService request naming "fs" in its 9-byte NUL-padded buffer. -/
def fsRequest : GetServiceRequest := ⟨0, 0, [102, 115, 0, 0, 0, 0, 0, 0, 0], rfl⟩

/-- Witness for C2: register "fs" with capacity 1 on a fresh system, then
resolve it. -/
theorem register_then_resolve_witness :
    ServiceManager.empty.RegisterService Kernel.init fsName 1 =
      (Except.ok fsPort, smFS, kAfterRegister)
  ∧ (fsPort = (CreatePortPair Kernel.init 1 fsName).1
     ∧ smFS.GetServicePort fsName =
         Except.ok (CreatePortPair Kernel.init 1 fsName).2.1
     ∧ (CreatePortPair Kernel.init 1 fsName).2.1.portId = fsPort.portId) :=
  ⟨rfl, register_then_resolve ServiceManager.empty Kernel.init fsName 1
     fsPort smFS kAfterRegister rfl⟩

/-- C3: After a successful registration of a name, a second registration
of the same name fails with the already-registered error, leaves the
registry and the kernel (hence the set of created port pairs) unchanged,
and the first entry remains resolvable. -/
theorem register_twice_already_registered (sm : ServiceManager) (k : Kernel)
    (name : ServiceName) (ms ms2 : Nat) (sp : ServerPort) (sm2 : ServiceManager)
    (k2 : Kernel) (h : sm.RegisterService k name ms = (Except.ok sp, sm2, k2)) :
    sm2.RegisterService k2 name ms2 =
      (Except.error ResultCode.alreadyRegistered, sm2, k2)
  ∧ ∃ cp, sm2.GetServicePort name = Except.ok cp := by
  obtain ⟨hv, hf, hsp, hsm2, hk2⟩ := registerService_ok sm k name ms sp sm2 k2 h
  subst hsm2
  constructor
  · unfold ServiceManager.RegisterService
    rw [if_neg (fun hne => hne hv), if_pos (by simp [findService])]
  · refine ⟨(CreatePortPair k ms name).2.1, ?_⟩
    unfold ServiceManager.GetServicePort
    rw [if_neg (fun hne => hne hv)]
    simp [findService]

/-- Witness for C3: registering "fs" twice on a fresh system. -/
theorem register_twice_already_registered_witness :
    ServiceManager.empty.RegisterService Kernel.init fsName 1 =
      (Except.ok fsPort, smFS, kAfterRegister)
  ∧ (smFS.RegisterService kAfterRegister fsName 4 =
       (Except.error ResultCode.alreadyRegistered, smFS, kAfterRegister)
     ∧ ∃ cp, smFS.GetServicePort fsName = Except.ok cp) :=
  ⟨rfl, register_twice_already_registered ServiceManager.empty Kernel.init fsName 1 4
     fsPort smFS kAfterRegister rfl⟩

/-- C5: For every valid name that has never been registered, resolve and
connect both fail with the not-registered error (connect leaves the
kernel state untouched). -/
theorem unregistered_name_errors (sm : ServiceManager) (k : Kernel)
    (name : ServiceName)
    (hvalid : ValidateServiceName name = ResultCode.success)
    (habsent : findService sm.registered_services name = none) :
    sm.GetServicePort name = Except.error ResultCode.serviceNotRegistered
  ∧ sm.ConnectToService k name =
      (Except.error ResultCode.serviceNotRegistered, k) := by
  have h1 : sm.GetServicePort name = Except.error ResultCode.serviceNotRegistered := by
    unfold ServiceManager.GetServicePort
    rw [if_neg (fun hne => hne hvalid), habsent]
  refine ⟨h1, ?_⟩
  unfold ServiceManager.ConnectToService
  rw [h1]

/-- Witness for C5: resolving and connecting to "nope" on a fresh,
empty registry. -/
theorem unregistered_name_errors_witness :
    ValidateServiceName nopeName = ResultCode.success
  ∧ findService ServiceManager.empty.registered_services nopeName = none
  ∧ (ServiceManager.empty.GetServicePort nopeName =
       Except.error ResultCode.serviceNotRegistered
     ∧ ServiceManager.empty.ConnectToService Kernel.init nopeName =
         (Except.error ResultCode.serviceNotRegistered, Kernel.init)) :=
  ⟨rfl, rfl, unregistered_name_errors ServiceManager.empty Kernel.init nopeName rfl rfl⟩

/-- C6: The Initialize command succeeds for every prior registry and
kernel state: the reply is exactly the success code with zero output
handles, and both the registry and the kernel pass through unchanged. -/
theorem initialize_always_succeeds (sm : ServiceManager) (k : Kernel) :
    (SM.Initialize sm k).1.code = ResultCode.success
  ∧ (SM.Initialize sm k).1.handles = []
  ∧ (SM.Initialize sm k).2.1 = sm
  ∧ (SM.Initialize sm k).2.2 = k :=
  ⟨rfl, rfl, rfl, rfl⟩

/-- C7: A second call of the one-time bring-up installation on the same
registry instance hits the fatal assertion path (embedded as none); it
never silently succeeds again. -/
theorem installInterfaces_twice_fatal (sm sm2 : ServiceManager)
    (h : sm.InstallInterfaces = some sm2) :
    sm2.InstallInterfaces = none := by
  unfold ServiceManager.InstallInterfaces at h ⊢
  by_cases hb : sm.sm_interface_alive
  · rw [if_pos hb] at h
    cases h
  · rw [if_neg hb] at h
    simp only [Option.some.injEq] at h
    rw [← h]
    simp

/-- Witness for C7: installing twice starting from a fresh registry. -/
theorem installInterfaces_twice_fatal_witness :
    ServiceManager.empty.InstallInterfaces = some ⟨[], true, true⟩
  ∧ (ServiceManager.mk [] true true).InstallInterfaces = none :=
  ⟨rfl, installInterfaces_twice_fatal ServiceManager.empty ⟨[], true, true⟩ rfl⟩

/-- C8: Connect is extensionally the composition of resolve followed by
invoking Connect on the resolved connector: a resolve failure is returned
as the result of connect (kernel untouched), and on successful resolution
connect returns exactly the result of the Connect call on the
connector. -/
theorem connectToService_is_resolve_then_connect (sm : ServiceManager) (k : Kernel)
    (name : ServiceName) :
    (∀ e, sm.GetServicePort name = Except.error e →
      sm.ConnectToService k name = (Except.error e, k))
  ∧ (∀ cp, sm.GetServicePort name = Except.ok cp →
      sm.ConnectToService k name = cp.Connect k) := by
  constructor
  · intro e h
    unfold ServiceManager.ConnectToService
    rw [h]
  · intro cp h
    unfold ServiceManager.ConnectToService
    rw [h]

/-- Witness for C8: both composition cases at concrete states — a
successful resolution of "fs" on the loaded registry, and a failed
resolution of "nope" on the empty one. -/
theorem connectToService_is_resolve_then_connect_witness :
    (smFS.GetServicePort fsName = Except.ok fsConnector
     ∧ smFS.ConnectToService kAfterRegister fsName =
         fsConnector.Connect kAfterRegister)
  ∧ (ServiceManager.empty.GetServicePort nopeName =
       Except.error ResultCode.serviceNotRegistered
     ∧ ServiceManager.empty.ConnectToService Kernel.init nopeName =
         (Except.error ResultCode.serviceNotRegistered, Kernel.init)) :=
  ⟨⟨rfl, (connectToService_is_resolve_then_connect smFS kAfterRegister fsName).2
      fsConnector rfl⟩,
   ⟨rfl, (connectToService_is_resolve_then_connect ServiceManager.empty Kernel.init
      nopeName).1 ResultCode.serviceNotRegistered rfl⟩⟩

/-- C9: The registry map keeps at most one entry per name (distinct keys
are preserved by registration), and no operation of this core removes or
replaces an entry: every stored pair survives a registration verbatim and
stays resolvable to the same connector, while Initialize and the bring-up
installation leave the map untouched. -/
theorem registry_map_invariant (sm : ServiceManager) (k : Kernel)
    (name : ServiceName) (ms : Nat)
    (hnodup : (sm.registered_services.map Prod.fst).Nodup) :
    ((sm.RegisterService k name ms).2.1.registered_services.map Prod.fst).Nodup
  ∧ (∀ p, p ∈ sm.registered_services →
      p ∈ (sm.RegisterService k name ms).2.1.registered_services)
  ∧ (∀ n cp, findService sm.registered_services n = some cp →
      findService (sm.RegisterService k name ms).2.1.registered_services n = some cp)
  ∧ (SM.Initialize sm k).2.1.registered_services = sm.registered_services
  ∧ (∀ sm2, sm.InstallInterfaces = some sm2 →
      sm2.registered_services = sm.registered_services) := by
  have hInst : ∀ sm2, sm.InstallInterfaces = some sm2 →
      sm2.registered_services = sm.registered_services := by
    intro sm2 h2
    unfold ServiceManager.InstallInterfaces at h2
    by_cases hb : sm.sm_interface_alive
    · rw [if_pos hb] at h2
      cases h2
    · rw [if_neg hb] at h2
      simp only [Option.some.injEq] at h2
      rw [← h2]
  by_cases hv : ValidateServiceName name = ResultCode.success
  · by_cases hf : (findService sm.registered_services name).isSome
    · have hR : (sm.RegisterService k name ms).2.1 = sm := by
        unfold ServiceManager.RegisterService
        rw [if_neg (fun hne => hne hv), if_pos hf]
      rw [hR]
      exact ⟨hnodup, fun p hp => hp, fun n cp hcp => hcp, rfl, hInst⟩
    · have hfn : findService sm.registered_services name = none :=
        Option.not_isSome_iff_eq_none.mp hf
      have hR : (sm.RegisterService k name ms).2.1.registered_services =
          (name, (CreatePortPair k ms name).2.1) :: sm.registered_services := by
        unfold ServiceManager.RegisterService
        rw [if_neg (fun hne => hne hv), if_neg hf]
      rw [hR]
      refine ⟨?_, ?_, ?_, rfl, hInst⟩
      · simp only [List.map_cons, List.nodup_cons]
        exact ⟨(findService_eq_none_iff _ _).mp hfn, hnodup⟩
      · intro p hp
        exact List.mem_cons_of_mem _ hp
      · intro n cp hcp
        by_cases hn : name = n
        · subst hn
          rw [hfn] at hcp
          cases hcp
        · simp [findService, hn, hcp]
  · have hR : (sm.RegisterService k name ms).2.1 = sm := by
      unfold ServiceManager.RegisterService
      rw [if_pos hv]
    rw [hR]
    exact ⟨hnodup, fun p hp => hp, fun n cp hcp => hcp, rfl, hInst⟩

/-- Witness for C9: the invariant applied to the loaded one-entry registry
while registering "nope". -/
theorem registry_map_invariant_witness :
    ((smFS.registered_services.map Prod.fst).Nodup)
  ∧ (((smFS.RegisterService kAfterRegister nopeName 2).2.1.registered_services.map
        Prod.fst).Nodup
     ∧ (∀ p, p ∈ smFS.registered_services →
         p ∈ (smFS.RegisterService kAfterRegister nopeName 2).2.1.registered_services)
     ∧ (∀ n cp, findService smFS.registered_services n = some cp →
         findService (smFS.RegisterService kAfterRegister nopeName 2).2.1.registered_services
           n = some cp)
     ∧ (SM.Initialize smFS kAfterRegister).2.1.registered_services =
         smFS.registered_services
     ∧ (∀ sm2, smFS.InstallInterfaces = some sm2 →
         sm2.registered_services = smFS.registered_services)) :=
  ⟨by decide, registry_map_invariant smFS kAfterRegister nopeName 2 (by decide)⟩

/-- C1: When a GetService request resolves its name to a stored connector
and the connect attempt fails with exactly the capacity-exceeded error,
the reply carries that exact code together with exactly one handle, and
that handle is the stored connector of the port (not a session); and in
every reply, no result code other than success or capacity-exceeded ever
has a handle attached. -/
theorem getService_capacity_exceeded_quirk :
    (∀ (req : GetServiceRequest) (sm : ServiceManager) (k : Kernel)
       (nm : ServiceName) (cp : ClientPort),
       decodeCString req.name_buf = some nm →
       sm.GetServicePort nm = Except.ok cp →
       (cp.Connect k).1 = Except.error ResultCode.maxConnectionsReached →
       SM.GetService req sm k =
         some (⟨ResultCode.maxConnectionsReached, [Handle.port cp]⟩, (cp.Connect k).2)
       ∧ findService sm.registered_services nm = some cp)
  ∧ (∀ (req : GetServiceRequest) (sm : ServiceManager) (k : Kernel)
       (r : Reply) (k2 : Kernel),
       SM.GetService req sm k = some (r, k2) →
       r.code ≠ ResultCode.success →
       r.code ≠ ResultCode.maxConnectionsReached →
       r.handles = []) := by
  constructor
  · intro req sm k nm cp hd hgp hconn
    refine ⟨?_, (getServicePort_ok sm nm cp hgp).2⟩
    unfold SM.GetService
    rw [hd]
    rcases hck : cp.Connect k with ⟨res, k2⟩
    rw [hck] at hconn
    simp only at hconn
    subst hconn
    simp [hgp, hck]
  · intro req sm k r k2 h hns hnm
    unfold SM.GetService at h
    split at h
    · cases h
    · split at h
      · simp only [Option.some.injEq, Prod.mk.injEq] at h
        rw [← h.1]
      · split at h
        · simp only [Option.some.injEq, Prod.mk.injEq] at h
          exact absurd (congrArg Reply.code h.1).symm hns
        · split at h
          · simp only [Option.some.injEq, Prod.mk.injEq] at h
            exact absurd (congrArg Reply.code h.1).symm hnm
          · simp only [Option.some.injEq, Prod.mk.injEq] at h
            rw [← h.1]

/-- Witness for C1: the capacity-exceeded scenario of the spec — "fs"
registered with capacity 1, one session already live, a second GetService
request for "fs". -/
theorem getService_capacity_exceeded_quirk_witness :
    decodeCString fsRequest.name_buf = some fsName
  ∧ smFS.GetServicePort fsName = Except.ok fsConnector
  ∧ (fsConnector.Connect kOneSession).1 =
      Except.error ResultCode.maxConnectionsReached
  ∧ (SM.GetService fsRequest smFS kOneSession =
       some (⟨ResultCode.maxConnectionsReached, [Handle.port fsConnector]⟩,
             (fsConnector.Connect kOneSession).2)
     ∧ findService smFS.registered_services fsName = some fsConnector) :=
  ⟨rfl, rfl, rfl,
   getService_capacity_exceeded_quirk.1 fsRequest smFS kOneSession fsName fsConnector
     rfl rfl rfl⟩

/-- C10: SM::GetService pops the name as a raw 9-byte buffer (not the 8
bytes of the wire format) and decodes it as the byte prefix up to the
first terminator; the decode — and with it the handler — is well-defined
exactly when a terminator occurs among those 9 bytes, and reads past the
end of the buffer otherwise. -/
theorem getService_nine_byte_name_decode (req : GetServiceRequest)
    (sm : ServiceManager) (k : Kernel) :
    req.name_buf.length = 9
  ∧ decodeCString req.name_buf =
      (if 0 ∈ req.name_buf
       then some (req.name_buf.takeWhile (fun b => b != 0))
       else none)
  ∧ ((SM.GetService req sm k).isSome ↔ 0 ∈ req.name_buf) := by
  refine ⟨req.name_buf_size, ?_, ?_, ?_⟩
  · by_cases hm : 0 ∈ req.name_buf
    · rw [if_pos hm]
      exact decodeCString_eq_some_takeWhile _ hm
    · rw [if_neg hm]
      exact (decodeCString_eq_none_iff _).mpr hm
  · intro hs
    by_contra hm
    have hd : decodeCString req.name_buf = none := (decodeCString_eq_none_iff _).mpr hm
    unfold SM.GetService at hs
    rw [hd] at hs
    cases hs
  · intro hm
    exact getService_def_of_decode req sm k _ (decodeCString_eq_some_takeWhile _ hm)
